import Mathlib

/-!
# Verification of the tenki-rs forecast scraping pipeline

Shallow embedding of `src/tenki-core/src/scrape.rs` (the whole pipeline:
entry points `fetch_each_1hour_forecast` / `fetch_each_3hours_forecast`,
the worker `fetch_3days_forecast`, its inner closure, the date resolver
`parse_date`, and the per-slot extraction closure run over `izip!` of the
eight per-row-category cell lists).

External collaborators (the HTTP transport `reqwest` and the CSS-selector
query engine `scraper`) are modelled as inputs: the transport outcome is a
value of `FetchOutcome`, and the result of running the granularity-specific
selector queries over the parsed document is a `Page` (the first `h2`'s
text nodes and the list of matching sub-tables, each sub-table being the
result of the per-row-category selector queries on its re-parsed fragment).

Rust panics (`unwrap`, `assert!`, chrono's panicking `NaiveDate::from_ymd`)
are modelled explicitly by the `panicked` constructor of `Panicking` /
`Outcome`, distinct from the `Result`-style error channel.

The value types `WeatherKind`, `WindDirection`, `Weather`, `Announce`,
`DailyForecast` live in `src/tenki-core/src/weather.rs`, which is not part
of the provided sources; they are modelled from the spec (see their doc
comments). None of the claims depends on the concrete enum labels, only on
whether a given cell text is accepted by the corresponding `FromStr`.
-/

namespace Tenki

/-- Modelled from the spec: `WeatherKind` from `src/tenki-core/src/weather.rs`
(not included in the sources) - "enum of discrete sky/precipitation
conditions, parsed from a short text label; unrecognized label is a parse
failure, not a default". The concrete label set is illustrative; the claims
only use whether `fromStr` succeeds. -/
inductive WeatherKind where
  | sunny
  | cloudy
  | rainy
  | snowy
  deriving Repr, DecidableEq

/-- Modelled from the spec: the `FromStr` instance of `WeatherKind`
("unrecognized label is a parse failure"). The placeholder `---` is not a
recognized label. -/
def WeatherKind.fromStr : String → Option WeatherKind
  | "晴れ" => some .sunny
  | "曇り" => some .cloudy
  | "雨" => some .rainy
  | "雪" => some .snowy
  | _ => none

/-- Modelled from the spec: `WindDirection` from
`src/tenki-core/src/weather.rs` (not included) - "enum of compass
directions (including calm/no-wind), parsed from text". -/
inductive WindDirection where
  | north
  | south
  | east
  | west
  | calm
  deriving Repr, DecidableEq

/-- Modelled from the spec: the `FromStr` instance of `WindDirection`. -/
def WindDirection.fromStr : String → Option WindDirection
  | "北" => some .north
  | "南" => some .south
  | "東" => some .east
  | "西" => some .west
  | "静穏" => some .calm
  | _ => none

/-- Digit run to a number: `foldl (n * 10 + digit)`. -/
def digitsToNat (cs : List Char) : Nat :=
  cs.foldl (fun n c => n * 10 + (c.toNat - ('0').toNat)) 0

/-- Rust `u32::from_str` on a trimmed cell text: an optional leading `+`,
then one or more ASCII digits, value below `2 ^ 32`; anything else is a
parse failure. -/
def parseU32? (s : String) : Option Nat :=
  let cs := s.toList
  let ds := match cs with
    | '+' :: rest => rest
    | _ => cs
  if ds ≠ [] ∧ ds.all Char.isDigit ∧ digitsToNat ds < 2 ^ 32 then
    some (digitsToNat ds)
  else
    none

/-- Rust `i32::from_str`: an optional leading `+` or `-`, then one or more
ASCII digits, value in the `i32` range. -/
def parseI32? (s : String) : Option Int :=
  let cs := s.toList
  let (neg, ds) : Bool × List Char := match cs with
    | '+' :: rest => (false, rest)
    | '-' :: rest => (true, rest)
    | _ => (false, cs)
  if ds ≠ [] ∧ ds.all Char.isDigit then
    let v : Int := Int.ofNat (digitsToNat ds)
    let v := if neg then -v else v
    if -(2 ^ 31) ≤ v ∧ v < 2 ^ 31 then some v else none
  else
    none

/-- `chrono::NaiveTime` restricted to what the pipeline produces
(`from_hms(hour % 24, 0, 0)`, which never panics since `hour % 24 < 24`). -/
structure NaiveTime where
  hour : Nat
  minute : Nat
  second : Nat
  deriving Repr, DecidableEq

/-- `chrono::NaiveDate` as a plain year/month/day record. -/
structure NaiveDate where
  year : Int
  month : Nat
  day : Nat
  deriving Repr, DecidableEq

/-- Gregorian leap-year rule, as used by chrono's calendar validity check. -/
def isLeapYear (y : Int) : Bool :=
  y % 4 == 0 && (y % 100 != 0 || y % 400 == 0)

/-- Number of days in a month of a given year. -/
def daysInMonth (y : Int) (m : Nat) : Nat :=
  if m == 2 then (if isLeapYear y then 29 else 28)
  else if m == 4 || m == 6 || m == 9 || m == 11 then 30
  else 31

/-- `chrono::NaiveDate::from_ymd_opt`: `some` exactly on a valid calendar
date. The source calls the panicking variant `from_ymd`, modelled at the
call site by panicking on the `none` case of this function. -/
def NaiveDate.from_ymd_opt (y : Int) (m d : Nat) : Option NaiveDate :=
  if 1 ≤ m && m ≤ 12 && 1 ≤ d && d ≤ daysInMonth y m then
    some ⟨y, m, d⟩
  else
    none

/-- Modelled from the spec: `Weather` from `src/tenki-core/src/weather.rs`
(not included) - "immutable record: kind, temperature (signed number),
prob_precip (optional percentage), precipitation, humidity, wind_direction,
wind_speed"; numbers are modelled as integers, which is faithful for every
claim (none depends on numeric precision). -/
structure Weather where
  kind : WeatherKind
  temperature : Int
  prob_precip : Option Nat
  precipitation : Nat
  humidity : Nat
  wind_direction : WindDirection
  wind_speed : Nat
  deriving Repr, DecidableEq

/-- Modelled from the spec: `Announce` from `src/tenki-core/src/weather.rs`
(not included) - tagged union `NotYet | Past(Weather) | Regular(Weather)`. -/
inductive Announce where
  | NotYet
  | Past (w : Weather)
  | Regular (w : Weather)
  deriving Repr, DecidableEq

/-- Modelled from the spec: `DailyForecast` from
`src/tenki-core/src/weather.rs` (not included) - location string, calendar
date, and the ordered `(time-of-day, Announce)` sequence. -/
structure DailyForecast where
  location : String
  date : NaiveDate
  weathers : List (NaiveTime × Announce)
  deriving Repr, DecidableEq

/-- The two-kind error taxonomy of `scrape.rs` (`enum Error`). -/
inductive Error where
  | NetworkError (msg : String)
  | InvalidHtml (msg : String)
  deriving Repr, DecidableEq

/-- Outcome of a Rust computation that may panic or return
`Result<α, ε>`: `panicked` models a Rust panic (`unwrap` on a `None`/`Err`,
`assert!` failure, panicking chrono constructor), `error` the `Err` case,
`ok` the `Ok` case. -/
inductive Outcome (ε α : Type) where
  | panicked (msg : String)
  | error (e : ε)
  | ok (a : α)
  deriving Repr, DecidableEq

/-- Outcome of a Rust computation that may panic or return a plain value
(used for `parse_date`, whose Rust type is `Option<NaiveDate>` but which
can panic inside `NaiveDate::from_ymd`). -/
inductive Panicking (α : Type) where
  | panicked (msg : String)
  | value (a : α)
  deriving Repr, DecidableEq

/-- The leftmost match of the regex `(\d+)月(\d+)日` anchored at the start
of the character list: a nonempty maximal digit run, `月`, a nonempty
maximal digit run, `日`. (For this pattern maximal munch is exact: `月`/`日`
are not digits, so greedy `\d+` never needs backtracking.) Returns the two
capture groups as strings. -/
def matchDateAt (cs : List Char) : Option (String × String) :=
  let (ds1, rest1) := cs.span Char.isDigit
  if ds1.isEmpty then none
  else
    match rest1 with
    | '月' :: rest2 =>
      let (ds2, rest3) := rest2.span Char.isDigit
      if ds2.isEmpty then none
      else
        match rest3 with
        | '日' :: _ => some (ds1.asString, ds2.asString)
        | _ => none
    | _ => none

/-- `Regex::captures` for the pattern `(\d+)月(\d+)日`: the leftmost match
in the input, scanning start positions left to right. -/
def findDate : List Char → Option (String × String)
  | [] => none
  | c :: rest =>
    match matchDateAt (c :: rest) with
    | some r => some r
    | none => findDate rest

/-- `parse_date` (scrape.rs lines 66-78): regex capture, `parse().unwrap()`
of both groups, the narrow year-inference heuristic (lines 72-76), then the
panicking `NaiveDate::from_ymd`. `local_today` (captured from
`chrono::Local::today()`) is passed explicitly. -/
def parse_date (today : NaiveDate) (input : String) : Panicking (Option NaiveDate) :=
  match findDate input.toList with
  | none => .value none
  | some (ms, ds) =>
    match parseU32? ms with
    | none => .panicked ("called Result.unwrap on an Err value parsing " ++ ms)
    | some m =>
      match parseU32? ds with
      | none => .panicked ("called Result.unwrap on an Err value parsing " ++ ds)
      | some d =>
        let y : Int := if m == 1 && today.month == 12 then today.year + 1 else today.year
        match NaiveDate.from_ymd_opt y m d with
        | some date => .value (some date)
        | none => .panicked "invalid or out-of-range date"

/-- An hour cell (`tr.hour > td > span` match): its text content and
whether it has the `past` class (`has_class("past", AsciiCaseInsensitive)`,
scrape.rs lines 115-117). -/
structure HourCell where
  text : String
  hasPastClass : Bool
  deriving Repr, DecidableEq

/-- One day's sub-table, as seen through the selector queries that
`fetch_3days_forecast` runs on the re-parsed fragment: `headTexts` is the
list of `inner_html` values of `tr.head > td > div` matches, and the eight
per-row-category cell-text lists follow (each cell text already holds the
concatenation of all text nodes under the cell, which is what
`elem.text().collect::<String>()` produces; trimming happens in
`collect_text`). -/
structure SubTable where
  headTexts : List String
  hours : List HourCell
  kinds : List String
  temps : List String
  probPrecips : List String
  precips : List String
  humids : List String
  windDirs : List String
  windSpeeds : List String
  deriving Repr, DecidableEq

/-- The 8-tuple handed to the slot closure by `izip!`. -/
structure SlotCells where
  hour : HourCell
  kind : String
  temp : String
  prob_precip : String
  precip : String
  humid : String
  wind_dir : String
  wind_speed : String
  deriving Repr, DecidableEq

/-- `izip!` over the eight cell lists: combines positionally and stops at
the shortest list (scrape.rs lines 91-100). -/
def izip8 : List HourCell → List String → List String → List String →
    List String → List String → List String → List String → List SlotCells
  | h :: hs, k :: ks, t :: ts, p :: ps, r :: rs, u :: us, w :: wss, v :: vs =>
    ⟨h, k, t, p, r, u, w, v⟩ :: izip8 hs ks ts ps rs us wss vs
  | _, _, _, _, _, _, _, _ => []

/-- `collect_text` (scrape.rs lines 103-105) applied to a cell whose text
nodes are already concatenated: `.trim()`, i.e. drop leading and trailing
whitespace (implemented structurally over the character list so that it
evaluates by kernel reduction). -/
def collect_text (s : String) : String :=
  ((s.toList.dropWhile Char.isWhitespace).reverse.dropWhile
    Char.isWhitespace).reverse.asString

/-- The generic field parser `parse<T>(s, name)` (scrape.rs lines
106-112): a `FromStr`-style primitive plus the error message
`Failed to parse "<s>" as <name>`. -/
def parseField {α : Type} (prim : String → Option α) (s name : String) :
    Except String α :=
  match prim s with
  | some v => .ok v
  | none => .error ("Failed to parse \"" ++ s ++ "\" as " ++ name)

/-- The per-slot closure passed to `.map` (scrape.rs lines 101-144):
computes the `past` flag and the `---` placeholder test, parses the hour
(always, `?` on failure), normalizes it modulo 24 into a time-of-day,
short-circuits to `NotYet` on the placeholder, otherwise parses every
`Weather` field (`prob_precip` with a non-failing parse) and classifies the
slot as `Past` or `Regular` by the `past` flag. -/
def extractSlot (c : SlotCells) : Except String (NaiveTime × Announce) :=
  let past := c.hour.hasPastClass
  let notYet := collect_text c.kind == "---"
  match parseField parseU32? (collect_text c.hour.text) "hour" with
  | .error e => .error e
  | .ok h =>
    let hour : NaiveTime := ⟨h % 24, 0, 0⟩
    if notYet then .ok (hour, .NotYet)
    else
      match parseField WeatherKind.fromStr (collect_text c.kind) "kind" with
      | .error e => .error e
      | .ok kind =>
      match parseField parseI32? (collect_text c.temp) "temp" with
      | .error e => .error e
      | .ok temperature =>
      let prob_precip := parseU32? (collect_text c.prob_precip)
      match parseField parseU32? (collect_text c.precip) "precipitation" with
      | .error e => .error e
      | .ok precipitation =>
      match parseField parseU32? (collect_text c.humid) "humidity" with
      | .error e => .error e
      | .ok humidity =>
      match parseField WindDirection.fromStr (collect_text c.wind_dir) "wind_direction" with
      | .error e => .error e
      | .ok wind_direction =>
      match parseField parseU32? (collect_text c.wind_speed) "wind_speed" with
      | .error e => .error e
      | .ok wind_speed =>
        let weather : Weather :=
          ⟨kind, temperature, prob_precip, precipitation, humidity,
            wind_direction, wind_speed⟩
        if past then .ok (hour, .Past weather) else .ok (hour, .Regular weather)

/-- `.collect::<Result<Vec<_>, String>>()` over the slot closure: first
error wins, otherwise the in-order list of slot results. -/
def mapSlots : List SlotCells → Except String (List (NaiveTime × Announce))
  | [] => .ok []
  | c :: cs =>
    match extractSlot c with
    | .error e => .error e
    | .ok x =>
      match mapSlots cs with
      | .error e => .error e
      | .ok xs => .ok (x :: xs)

/-- Building one `DailyForecast` from one sub-table (the loop body,
scrape.rs lines 84-148): the location string `"<location> (<announced>)"`,
the date from the first `tr.head > td > div` match (`.next().unwrap()`
panics when there is none; `parse_date(..).ok_or("invalid date")?`), and
the `weathers` sequence from `izip!` + the slot closure. -/
def extractTable (location announced_time : String) (today : NaiveDate)
    (t : SubTable) : Outcome String DailyForecast :=
  let loc := location ++ " (" ++ announced_time ++ ")"
  match t.headTexts.head? with
  | none => .panicked "called Option.unwrap on a None value"
  | some dateText =>
    match parse_date today dateText with
    | .panicked m => .panicked m
    | .value none => .error "invalid date"
    | .value (some date) =>
      match mapSlots (izip8 t.hours t.kinds t.temps t.probPrecips t.precips
          t.humids t.windDirs t.windSpeeds) with
      | .error e => .error e
      | .ok ws => .ok ⟨loc, date, ws⟩

/-- The `for table in document.select(&selector_tables)` loop: extract each
matching sub-table in order, propagating the first panic or error. -/
def extractAll (location announced_time : String) (today : NaiveDate) :
    List SubTable → Outcome String (List DailyForecast)
  | [] => .ok []
  | t :: ts =>
    match extractTable location announced_time today t with
    | .panicked m => .panicked m
    | .error e => .error e
    | .ok d =>
      match extractAll location announced_time today ts with
      | .panicked m => .panicked m
      | .error e => .error e
      | .ok ds => .ok (d :: ds)

/-- The parsed document as seen through the document-level selector
queries: `h2s` holds, for each `h2` element in order, the list of its text
nodes (`.text()`); `tables` holds the sub-tables matching the
granularity-specific id selector
`#forecast-point-<h>h-today, ...-tomorrow, ...-dayaftertomorrow`,
in document order, each already re-parsed as a fragment and queried. -/
structure Page where
  h2s : List (List String)
  tables : List SubTable
  deriving Repr, DecidableEq

/-- The inner closure of `fetch_3days_forecast` (scrape.rs lines 52-153):
location/announced-time from the first `h2`'s first two text nodes
(`ok_or(..)?` on each), the per-table loop, then
`forecasts.into_boxed_slice().try_into().unwrap()`, which panics unless
exactly 3 forecasts were collected. -/
def innerFetch (today : NaiveDate) (doc : Page) :
    Outcome String (List DailyForecast) :=
  match doc.h2s.head? with
  | none => .error "location, announced_time not found"
  | some texts =>
    match texts with
    | [] => .error "location not found"
    | [_] => .error "announced_time not found"
    | location :: announced_time :: _ =>
      match extractAll location announced_time today doc.tables with
      | .panicked m => .panicked m
      | .error e => .error e
      | .ok fs =>
        if fs.length == 3 then .ok fs
        else .panicked "called Result.unwrap on an Err value: TryFromSliceError"

/-- The transport outcome of `reqwest::blocking::get(url)` followed by
`.text_with_charset("utf-8")`: either the GET itself fails
(`connectError`), or a response is obtained whose body either decodes to
UTF-8 text (`Except.ok body`) or fails to be read/decoded
(`Except.error msg`). -/
inductive FetchOutcome where
  | connectError (msg : String)
  | gotResponse (textResult : Except String String)
  deriving Repr

/-- The request URL built from the granularity token (scrape.rs lines
25-28). -/
def buildUrl (h : Nat) : String :=
  "https://tenki.jp/forecast/3/11/4020/8220/" ++
    (if h == 3 then "3hours" else "1hour") ++ ".html"

/-- `fetch_3days_forecast(h)` (scrape.rs lines 22-155). `assert!(h == 1 ||
h == 3)` panics on any other granularity. A GET failure is mapped to
`Error::NetworkError` (`map_err` + `?`, lines 30-32); a body text/decode
failure is `unwrap`ped (line 33-34), i.e. a panic. The document parse and
all selector queries are the external `scraper` collaborator, modelled by
`parsePage h body`. The inner closure's `Err(String)` is wrapped as
`Error::InvalidHtml` (line 154). -/
def fetch_3days_forecast (h : Nat) (today : NaiveDate)
    (transport : FetchOutcome) (parsePage : Nat → String → Page) :
    Outcome Error (List DailyForecast) :=
  if !(h == 1 || h == 3) then .panicked "assertion failed: h == 1 || h == 3"
  else
    match transport with
    | .connectError msg => .error (.NetworkError msg)
    | .gotResponse (.error msg) =>
      .panicked ("called Result.unwrap on an Err value: " ++ msg)
    | .gotResponse (.ok body) =>
      match innerFetch today (parsePage h body) with
      | .panicked m => .panicked m
      | .error e => .error (.InvalidHtml e)
      | .ok fs => .ok fs

/-- Entry point `fetch_each_3hours_forecast` (scrape.rs lines 159-161). -/
def fetch_each_3hours_forecast (today : NaiveDate) (transport : FetchOutcome)
    (parsePage : Nat → String → Page) : Outcome Error (List DailyForecast) :=
  fetch_3days_forecast 3 today transport parsePage

/-- Entry point `fetch_each_1hour_forecast` (scrape.rs lines 164-167). -/
def fetch_each_1hour_forecast (today : NaiveDate) (transport : FetchOutcome)
    (parsePage : Nat → String → Page) : Outcome Error (List DailyForecast) :=
  fetch_3days_forecast 1 today transport parsePage

/-! ## Helper lemmas -/

set_option maxHeartbeats 1600000 in
/-- `izip!` truncates to the shortest of the eight lists. -/
theorem izip8_length (l1 : List HourCell) (l2 l3 l4 l5 l6 l7 l8 : List String) :
    (izip8 l1 l2 l3 l4 l5 l6 l7 l8).length =
      min l1.length (min l2.length (min l3.length (min l4.length
        (min l5.length (min l6.length (min l7.length l8.length)))))) := by
  induction l1 generalizing l2 l3 l4 l5 l6 l7 l8 with
  | nil => simp [izip8]
  | cons a l1 ih =>
    cases l2 with
    | nil => simp [izip8]
    | cons b l2 =>
      cases l3 with
      | nil => simp [izip8]
      | cons c l3 =>
        cases l4 with
        | nil => simp [izip8]
        | cons d l4 =>
          cases l5 with
          | nil => simp [izip8]
          | cons e l5 =>
            cases l6 with
            | nil => simp [izip8]
            | cons f l6 =>
              cases l7 with
              | nil => simp [izip8]
              | cons g l7 =>
                cases l8 with
                | nil => simp [izip8]
                | cons i l8 =>
                  simp only [izip8, List.length_cons, ih]
                  omega

/-- A successful slot collection has one entry per (truncated) row. -/
theorem mapSlots_ok_length (cs : List SlotCells)
    (ws : List (NaiveTime × Announce)) (h : mapSlots cs = .ok ws) :
    ws.length = cs.length := by
  induction cs generalizing ws with
  | nil =>
    simp only [mapSlots] at h
    cases h
    rfl
  | cons c cs ih =>
    simp only [mapSlots] at h
    cases hc : extractSlot c with
    | error e => rw [hc] at h; cases h
    | ok x =>
      rw [hc] at h
      cases hcs : mapSlots cs with
      | error e => rw [hcs] at h; cases h
      | ok xs =>
        rw [hcs] at h
        cases h
        simp [ih xs hcs]

/-- An hour text that does not parse as `u32` fails the slot with the
field parser's message, regardless of every other cell. -/
theorem extractSlot_hour_fail (c : SlotCells)
    (hbad : parseU32? (collect_text c.hour.text) = none) :
    extractSlot c =
      .error ("Failed to parse \"" ++ collect_text c.hour.text ++ "\" as " ++ "hour") := by
  simp only [extractSlot, parseField, hbad]

/-- A successful slot always carries time-of-day `hour text mod 24`,
minutes and seconds zero. -/
theorem extractSlot_time (c : SlotCells) (time : NaiveTime) (a : Announce)
    (h : extractSlot c = .ok (time, a)) :
    ∃ n, parseU32? (collect_text c.hour.text) = some n ∧
      time = ⟨n % 24, 0, 0⟩ := by
  cases hp : parseU32? (collect_text c.hour.text) with
  | none =>
    rw [extractSlot_hour_fail c hp] at h
    cases h
  | some n =>
    refine ⟨n, rfl, ?_⟩
    simp only [extractSlot, parseField, hp] at h
    repeat' split at h
    all_goals cases h
    all_goals rfl

/-- A row that can never succeed poisons the whole slot collection. -/
theorem mapSlots_mem_fail (cs : List SlotCells) (c : SlotCells)
    (hmem : c ∈ cs) (hfail : ∀ x, extractSlot c ≠ .ok x) :
    ∀ ws, mapSlots cs ≠ .ok ws := by
  induction cs with
  | nil => cases hmem
  | cons c0 cs ih =>
    intro ws h
    simp only [mapSlots] at h
    cases hc0 : extractSlot c0 with
    | error e => rw [hc0] at h; cases h
    | ok x =>
      rw [hc0] at h
      rcases List.mem_cons.mp hmem with hceq | hmem2
      · exact hfail x (hceq ▸ hc0)
      · cases hcs : mapSlots cs with
        | error e => rw [hcs] at h; cases h
        | ok xs => exact ih hmem2 xs hcs

/-- Inversion of a successful per-table extraction: the date text matched,
and `weathers` is exactly the successful slot collection over the
`izip!`-truncated rows. -/
theorem extractTable_ok (location announced_time : String) (today : NaiveDate)
    (t : SubTable) (d : DailyForecast)
    (h : extractTable location announced_time today t = .ok d) :
    mapSlots (izip8 t.hours t.kinds t.temps t.probPrecips t.precips
      t.humids t.windDirs t.windSpeeds) = .ok d.weathers := by
  simp only [extractTable] at h
  split at h
  next => cases h
  next dateText hh =>
    split at h
    next => cases h
    next => cases h
    next date hd =>
      split at h
      next => cases h
      next ws hm =>
        cases h
        exact hm

/-- A table that can never extract poisons the whole per-table loop. -/
theorem extractAll_mem_fail (location announced_time : String)
    (today : NaiveDate) (ts : List SubTable) (t : SubTable) (hmem : t ∈ ts)
    (hfail : ∀ d, extractTable location announced_time today t ≠ .ok d) :
    ∀ ds, extractAll location announced_time today ts ≠ .ok ds := by
  induction ts with
  | nil => cases hmem
  | cons t0 ts ih =>
    intro ds h
    simp only [extractAll] at h
    cases ht0 : extractTable location announced_time today t0 with
    | panicked m => rw [ht0] at h; cases h
    | error e => rw [ht0] at h; cases h
    | ok d =>
      rw [ht0] at h
      rcases List.mem_cons.mp hmem with hteq | hmem2
      · exact hfail d (hteq ▸ ht0)
      · cases hts : extractAll location announced_time today ts with
        | panicked m => rw [hts] at h; cases h
        | error e => rw [hts] at h; cases h
        | ok ds2 => exact ih hmem2 ds2 hts

/-- Inversion of a successful inner closure: the per-table loop succeeded
on the document's matching tables with the first two `h2` text nodes, and
exactly 3 forecasts were collected. -/
theorem innerFetch_ok (today : NaiveDate) (doc : Page)
    (fs : List DailyForecast) (h : innerFetch today doc = .ok fs) :
    (∃ location announced_time,
      extractAll location announced_time today doc.tables = .ok fs) ∧
    fs.length = 3 := by
  simp only [innerFetch] at h
  split at h
  next => cases h
  next texts hh =>
    split at h
    next => cases h
    next => cases h
    next location announced_time tail =>
      split at h
      next => cases h
      next => cases h
      next fs0 he =>
        split at h
        next hlen =>
          cases h
          exact ⟨⟨location, announced_time, he⟩, by simpa using hlen⟩
        next => cases h

/-- Inversion of a successful fetch: the transport yielded a decodable
body and the inner closure succeeded on the queried document. -/
theorem fetch_ok (h : Nat) (today : NaiveDate) (transport : FetchOutcome)
    (parsePage : Nat → String → Page) (fs : List DailyForecast)
    (hok : fetch_3days_forecast h today transport parsePage = .ok fs) :
    ∃ body, transport = .gotResponse (.ok body) ∧
      innerFetch today (parsePage h body) = .ok fs := by
  simp only [fetch_3days_forecast] at hok
  split at hok
  next => cases hok
  next hh =>
    split at hok
    next => cases hok
    next => cases hok
    next body =>
      refine ⟨body, rfl, ?_⟩
      split at hok
      next => cases hok
      next => cases hok
      next fs0 hi =>
        cases hok
        exact hi

/-- The hour-of-day a row contributes when its hour cell parses: the
parsed value reduced mod 24. -/
def rowHour? (c : SlotCells) : Option Nat :=
  (parseU32? (collect_text c.hour.text)).map (· % 24)

/-- All rows' hour-of-day values, defined when every hour cell parses. -/
def rowHours? : List SlotCells → Option (List Nat)
  | [] => some []
  | c :: cs =>
    match rowHour? c, rowHours? cs with
    | some n, some ns => some (n :: ns)
    | _, _ => none

/-- A successful slot collection's times are exactly the rows' parsed
hours mod 24, in row order. -/
theorem mapSlots_hours (cs : List SlotCells) (ws : List (NaiveTime × Announce))
    (hs : List Nat) (hok : mapSlots cs = .ok ws) (hh : rowHours? cs = some hs) :
    ws.map (fun p => p.1.hour) = hs := by
  induction cs generalizing ws hs with
  | nil =>
    simp only [mapSlots] at hok
    simp only [rowHours?] at hh
    cases hok
    cases hh
    rfl
  | cons c cs ih =>
    simp only [mapSlots] at hok
    simp only [rowHours?] at hh
    cases hc : extractSlot c with
    | error e => rw [hc] at hok; cases hok
    | ok x =>
      rw [hc] at hok
      cases hcs : mapSlots cs with
      | error e => rw [hcs] at hok; cases hok
      | ok xs =>
        rw [hcs] at hok
        cases hok
        obtain ⟨n, hn, hx⟩ := extractSlot_time c x.1 x.2 (by rw [hc])
        have hrh : rowHour? c = some (n % 24) := by
          simp [rowHour?, hn]
        rw [hrh] at hh
        cases hrs : rowHours? cs with
        | none => rw [hrs] at hh; cases hh
        | some ns =>
          rw [hrs] at hh
          cases hh
          simp only [List.map_cons, ih xs ns hcs hrs, hx, List.cons.injEq, and_true]

/-- Inversion of a successful `from_ymd_opt`. -/
theorem from_ymd_opt_year (y : Int) (m d : Nat) (date : NaiveDate)
    (h : NaiveDate.from_ymd_opt y m d = some date) :
    date.year = y ∧ date.month = m ∧ date.day = d := by
  simp only [NaiveDate.from_ymd_opt] at h
  split at h
  · cases h; exact ⟨rfl, rfl, rfl⟩
  · cases h

/-! ## Claims -/

/-- **C4**: evaluation at the failing inputs. The spec and the claim say
`parse_date` returns `None` on an invalid month/day combination; the code
calls the panicking `chrono::NaiveDate::from_ymd`, so `"13月5日"` (month
13) and `"6月31日"` (day 31 in a 30-day month) panic instead of returning
`None`. -/
theorem claim_c4_invalid_date_panics :
    parse_date ⟨2024, 6, 1⟩ "13月5日" = .panicked "invalid or out-of-range date" ∧
    parse_date ⟨2024, 6, 1⟩ "6月31日" = .panicked "invalid or out-of-range date" := by
  exact ⟨rfl, rfl⟩

/-- **C5**: for every input matching the `(\d+)月(\d+)日` pattern whose
resolution returns a date, the assigned year is `today.year + 1` exactly
when the extracted month is 1 and `today`'s month is 12, and `today.year`
otherwise; and the two spec examples evaluate as stated. -/
theorem claim_c5_year_inference (today : NaiveDate) (input : String)
    (ms ds : String) (hf : findDate input.toList = some (ms, ds))
    (m d : Nat) (hm : parseU32? ms = some m) (hd : parseU32? ds = some d)
    (date : NaiveDate) (hp : parse_date today input = .value (some date)) :
    (date.year = if m = 1 ∧ today.month = 12 then today.year + 1 else today.year) ∧
    parse_date ⟨2024, 12, 20⟩ "1月5日" = .value (some ⟨2025, 1, 5⟩) ∧
    parse_date ⟨2024, 12, 20⟩ "6月5日" = .value (some ⟨2024, 6, 5⟩) := by
  refine ⟨?_, rfl, rfl⟩
  simp only [parse_date, hf, hm, hd] at hp
  split at hp
  next date0 heq =>
    cases hp
    have hy := (from_ymd_opt_year _ _ _ _ heq).1
    rw [hy]
    by_cases hc : m = 1 ∧ today.month = 12
    · simp [hc]
    · have : (m == 1 && today.month == 12) = false := by
        rcases Decidable.not_and_iff_or_not.mp hc with h1 | h2
        · simp [h1]
        · simp [h2]
      simp [this, hc]
  next => cases hp

/-- Witness for C5 at the concrete spec example `1月5日`, `today`
2024-12-20. -/
theorem claim_c5_year_inference_witness :
    ((⟨2025, 1, 5⟩ : NaiveDate).year =
      if (1 : Nat) = 1 ∧ (⟨2024, 12, 20⟩ : NaiveDate).month = 12 then
        (⟨2024, 12, 20⟩ : NaiveDate).year + 1
      else (⟨2024, 12, 20⟩ : NaiveDate).year) ∧
    parse_date ⟨2024, 12, 20⟩ "1月5日" = .value (some ⟨2025, 1, 5⟩) ∧
    parse_date ⟨2024, 12, 20⟩ "6月5日" = .value (some ⟨2024, 6, 5⟩) :=
  claim_c5_year_inference ⟨2024, 12, 20⟩ "1月5日" "1" "5" (by decide) 1 5
    (by decide) (by decide) ⟨2025, 1, 5⟩ (by decide)

/-- **C6**: a slot whose weather-kind cell text trims to the literal
`---` extracts to `NotYet` whatever the other seven cells hold (they are
quantified arbitrarily and never parsed), provided only that the hour cell
parses. -/
theorem claim_c6_placeholder_notyet (c : SlotCells)
    (hkind : collect_text c.kind = "---") (n : Nat)
    (hhour : parseU32? (collect_text c.hour.text) = some n) :
    extractSlot c = .ok (⟨n % 24, 0, 0⟩, .NotYet) := by
  simp [extractSlot, parseField, hhour, hkind]

/-- Witness for C6: hour `7`, kind cell ` --- `, every other cell
malformed; the slot still extracts to `NotYet` with no failure. -/
theorem claim_c6_placeholder_notyet_witness :
    extractSlot ⟨⟨"7", false⟩, " --- ", "garbage", "garbage", "garbage",
      "garbage", "garbage", "garbage"⟩ = .ok (⟨7 % 24, 0, 0⟩, .NotYet) :=
  claim_c6_placeholder_notyet _ (by decide) 7 (by decide)

/-- **C7**: a slot whose kind text is not the placeholder and whose
mandatory fields all parse extracts to `Past` exactly when the hour cell
carries the `past` class, and to `Regular` otherwise, both carrying the
fully parsed `Weather` record (with `prob_precip` the non-failing parse of
its cell). -/
theorem claim_c7_past_regular (c : SlotCells)
    (hkind : ¬ collect_text c.kind = "---")
    (n : Nat) (hhour : parseU32? (collect_text c.hour.text) = some n)
    (k : WeatherKind) (hk : WeatherKind.fromStr (collect_text c.kind) = some k)
    (t : Int) (ht : parseI32? (collect_text c.temp) = some t)
    (pr : Nat) (hpr : parseU32? (collect_text c.precip) = some pr)
    (hu : Nat) (hhu : parseU32? (collect_text c.humid) = some hu)
    (wd : WindDirection) (hwd : WindDirection.fromStr (collect_text c.wind_dir) = some wd)
    (ws : Nat) (hws : parseU32? (collect_text c.wind_speed) = some ws) :
    extractSlot c = .ok (⟨n % 24, 0, 0⟩,
      if c.hour.hasPastClass then
        .Past ⟨k, t, parseU32? (collect_text c.prob_precip), pr, hu, wd, ws⟩
      else
        .Regular ⟨k, t, parseU32? (collect_text c.prob_precip), pr, hu, wd, ws⟩) := by
  have hne : (collect_text c.kind == "---") = false := beq_eq_false_iff_ne.mpr hkind
  simp only [extractSlot, parseField, hhour, hk, ht, hpr, hhu, hwd, hws, hne,
    Bool.false_eq_true, if_false]
  by_cases hp : c.hour.hasPastClass <;> simp [hp]

/-- Witness for C7: the same parsed slot with and without the `past`
class marker yields `Past` and `Regular` respectively. -/
theorem claim_c7_past_regular_witness :
    extractSlot ⟨⟨"10", true⟩, "晴れ", "-3", "20", "0", "55", "北", "4"⟩ =
      .ok (⟨10 % 24, 0, 0⟩,
        .Past ⟨.sunny, -3, parseU32? (collect_text "20"), 0, 55, .north, 4⟩) ∧
    extractSlot ⟨⟨"10", false⟩, "晴れ", "-3", "xx", "0", "55", "北", "4"⟩ =
      .ok (⟨10 % 24, 0, 0⟩,
        .Regular ⟨.sunny, -3, parseU32? (collect_text "xx"), 0, 55, .north, 4⟩) :=
  ⟨claim_c7_past_regular ⟨⟨"10", true⟩, "晴れ", "-3", "20", "0", "55", "北", "4"⟩
      (by decide) 10 (by decide) .sunny (by decide) (-3) (by decide) 0 (by decide)
      55 (by decide) .north (by decide) 4 (by decide),
    claim_c7_past_regular ⟨⟨"10", false⟩, "晴れ", "-3", "xx", "0", "55", "北", "4"⟩
      (by decide) 10 (by decide) .sunny (by decide) (-3) (by decide) 0 (by decide)
      55 (by decide) .north (by decide) 4 (by decide)⟩

/-- **C9**: every successful slot's time-of-day is its hour cell text
parsed as an integer and reduced mod 24, with minutes and seconds zero;
and the concrete hour text `24` maps to time-of-day `00:00`. -/
theorem claim_c9_hour_mod24 (c : SlotCells) (time : NaiveTime) (a : Announce)
    (h : extractSlot c = .ok (time, a)) :
    (∃ n, parseU32? (collect_text c.hour.text) = some n ∧
      time = ⟨n % 24, 0, 0⟩ ∧ time.minute = 0 ∧ time.second = 0) ∧
    extractSlot ⟨⟨"24", false⟩, "---", "", "", "", "", "", ""⟩ =
      .ok (⟨0, 0, 0⟩, .NotYet) := by
  obtain ⟨n, hn, hx⟩ := extractSlot_time c time a h
  exact ⟨⟨n, hn, hx, by rw [hx], by rw [hx]⟩, by rfl⟩

/-- Witness for C9 at a concrete slot with hour text `25` (time-of-day
becomes 1). -/
theorem claim_c9_hour_mod24_witness :
    ((∃ n, parseU32? (collect_text (⟨⟨"25", false⟩, "---", "", "", "", "",
        "", ""⟩ : SlotCells).hour.text) = some n ∧
      (⟨25 % 24, 0, 0⟩ : NaiveTime) = ⟨n % 24, 0, 0⟩ ∧
      (⟨25 % 24, 0, 0⟩ : NaiveTime).minute = 0 ∧
      (⟨25 % 24, 0, 0⟩ : NaiveTime).second = 0) ∧
    extractSlot ⟨⟨"24", false⟩, "---", "", "", "", "", "", ""⟩ =
      .ok (⟨0, 0, 0⟩, .NotYet)) :=
  claim_c9_hour_mod24 ⟨⟨"25", false⟩, "---", "", "", "", "", "", ""⟩
    ⟨25 % 24, 0, 0⟩ .NotYet (by rfl)

/-- Fixture for C10: a slot whose hour cell text does not parse while its
kind cell is the `---` placeholder. -/
def c10Slot : SlotCells := ⟨⟨"ab", false⟩, "---", "", "", "", "", "", ""⟩

/-- Fixture for C10: a sub-table producing exactly `c10Slot`. -/
def c10Table : SubTable :=
  ⟨["6月5日"], [⟨"ab", false⟩], ["---"], [""], [""], [""], [""], [""], [""]⟩

/-- Fixture for C10: a page whose three matching sub-tables are all
`c10Table`. -/
def c10Page : Page :=
  ⟨[["location", "announced"]], [c10Table, c10Table, c10Table]⟩

/-- **C10**: the hour cell of every (truncated) row must parse as an
unsigned integer, even for a `NotYet` row whose other cells are never
consulted: an unparseable hour text fails its slot with the field parser's
message, which makes extraction of any table holding that row fail, and
hence the whole fetch from any page holding such a table never succeeds. -/
theorem claim_c10_hour_must_parse (c : SlotCells)
    (hbad : parseU32? (collect_text c.hour.text) = none)
    (t : SubTable)
    (hmem : c ∈ izip8 t.hours t.kinds t.temps t.probPrecips t.precips
      t.humids t.windDirs t.windSpeeds)
    (h : Nat) (today : NaiveDate) (body : String)
    (parsePage : Nat → String → Page)
    (htab : t ∈ (parsePage h body).tables) :
    extractSlot c =
      .error ("Failed to parse \"" ++ collect_text c.hour.text ++ "\" as " ++ "hour") ∧
    (∀ loc ann d, extractTable loc ann today t ≠ .ok d) ∧
    (∀ fs, fetch_3days_forecast h today (.gotResponse (.ok body)) parsePage ≠
      .ok fs) := by
  have hslot := extractSlot_hour_fail c hbad
  have hfailslot : ∀ x, extractSlot c ≠ .ok x := by
    intro x hx
    rw [hslot] at hx
    cases hx
  have htable : ∀ loc ann d, extractTable loc ann today t ≠ .ok d := by
    intro loc ann d hok
    exact mapSlots_mem_fail _ c hmem hfailslot d.weathers
      (extractTable_ok loc ann today t d hok)
  refine ⟨hslot, htable, ?_⟩
  intro fs hfetch
  obtain ⟨body2, hbody, hinner⟩ := fetch_ok h today _ parsePage fs hfetch
  cases hbody
  obtain ⟨⟨loc, ann, hall⟩, _⟩ := innerFetch_ok today _ fs hinner
  exact extractAll_mem_fail loc ann today _ t htab (htable loc ann) fs hall

/-- Witness for C10 at the concrete fixtures: hour text `ab`, kind `---`. -/
theorem claim_c10_hour_must_parse_witness :
    extractSlot c10Slot =
      .error ("Failed to parse \"" ++ collect_text c10Slot.hour.text ++ "\" as " ++ "hour") ∧
    (∀ loc ann d, extractTable loc ann ⟨2024, 6, 1⟩ c10Table ≠ .ok d) ∧
    (∀ fs, fetch_3days_forecast 1 ⟨2024, 6, 1⟩ (.gotResponse (.ok "page"))
      (fun _ _ => c10Page) ≠ .ok fs) :=
  claim_c10_hour_must_parse c10Slot (by decide) c10Table (by decide) 1
    ⟨2024, 6, 1⟩ "page" (fun _ _ => c10Page) (by decide)

/-- Fixture for C1: a sub-table whose kind list (length 1) is strictly
shorter than its hour list (length 2). -/
def c1Table : SubTable :=
  ⟨["6月5日"], [⟨"1", false⟩, ⟨"2", false⟩], ["---"], ["a"], ["a"], ["a"],
    ["a"], ["a"], ["a"]⟩

/-- Fixture for C1: a page whose three matching sub-tables are all
`c1Table`. -/
def c1Page : Page := ⟨[["Tsukuba", "09:00"]], [c1Table, c1Table, c1Table]⟩

/-- Fixture for C1: the day that the fetch actually produces from
`c1Table` — truncated to a single slot. -/
def c1Day : DailyForecast :=
  ⟨"Tsukuba (09:00)", ⟨2024, 6, 5⟩, [(⟨1, 0, 0⟩, .NotYet)]⟩

/-- **C1** counterexample: a page in which every sub-table's kind list is
strictly shorter than its hour list, yet `fetch_each_1hour_forecast`
succeeds — returning days truncated to one slot — instead of returning
`Error::InvalidHtml`. -/
theorem claim_c1_counterexample :
    c1Table.kinds.length < c1Table.hours.length ∧
    fetch_each_1hour_forecast ⟨2024, 6, 1⟩ (.gotResponse (.ok "page"))
      (fun _ _ => c1Page) = .ok [c1Day, c1Day, c1Day] ∧
    c1Day.weathers.length = 1 :=
  ⟨by decide, rfl, rfl⟩

/-- **C1** (amended): when one of the eight per-row-category cell lists of
a sub-table is missing or shorter than the others, the fetch does not
return `Error::InvalidHtml`; `izip!` silently truncates, so a successfully
extracted day's `weathers` sequence has exactly the length of the shortest
of the eight lists. -/
theorem claim_c1_truncation (loc ann : String) (today : NaiveDate)
    (t : SubTable) (d : DailyForecast)
    (h : extractTable loc ann today t = .ok d) :
    d.weathers.length = min t.hours.length (min t.kinds.length
      (min t.temps.length (min t.probPrecips.length (min t.precips.length
        (min t.humids.length (min t.windDirs.length t.windSpeeds.length)))))) := by
  have hm := extractTable_ok loc ann today t d h
  have hl := mapSlots_ok_length _ _ hm
  rw [hl, izip8_length]

/-- Witness for C1 (amended) at the concrete truncating fixture. -/
theorem claim_c1_truncation_witness :
    c1Day.weathers.length = min c1Table.hours.length (min c1Table.kinds.length
      (min c1Table.temps.length (min c1Table.probPrecips.length
        (min c1Table.precips.length (min c1Table.humids.length
          (min c1Table.windDirs.length c1Table.windSpeeds.length)))))) :=
  claim_c1_truncation "Tsukuba" "09:00" ⟨2024, 6, 1⟩ c1Table c1Day (by rfl)

/-- Fixture for C2: a page with zero sub-tables matching the id pattern
(but a well-formed heading). -/
def c2EmptyPage : Page := ⟨[["Tsukuba", "09:00"]], []⟩

/-- Fixture for C2's witness: a well-formed one-slot sub-table. -/
def c2OkTable : SubTable :=
  ⟨["6月5日"], [⟨"1", false⟩], ["---"], [""], [""], [""], [""], [""], [""]⟩

/-- Fixture for C2's witness: a page with exactly three matching
sub-tables. -/
def c2OkPage : Page :=
  ⟨[["Tsukuba", "09:00"]], [c2OkTable, c2OkTable, c2OkTable]⟩

/-- Fixture for C2's witness: the day extracted from `c2OkTable`. -/
def c2OkDay : DailyForecast :=
  ⟨"Tsukuba (09:00)", ⟨2024, 6, 5⟩, [(⟨1, 0, 0⟩, .NotYet)]⟩

/-- **C2**: evaluation at the failing input, plus the success half of the
claim. A page with fewer than three matching sub-tables does NOT yield
`Error::InvalidHtml`: `forecasts.into_boxed_slice().try_into().unwrap()`
(scrape.rs line 152) panics on the length mismatch. The success half does
hold: every `ok` result has exactly 3 entries. -/
theorem claim_c2_fewer_tables_panics :
    fetch_each_1hour_forecast ⟨2024, 6, 1⟩ (.gotResponse (.ok "page"))
      (fun _ _ => c2EmptyPage) =
      .panicked "called Result.unwrap on an Err value: TryFromSliceError" ∧
    ∀ (h : Nat) (today : NaiveDate) (tr : FetchOutcome)
      (pp : Nat → String → Page) (fs : List DailyForecast),
      fetch_3days_forecast h today tr pp = .ok fs → fs.length = 3 := by
  refine ⟨rfl, ?_⟩
  intro h today tr pp fs hok
  obtain ⟨body, _, hinner⟩ := fetch_ok h today tr pp fs hok
  exact (innerFetch_ok today _ fs hinner).2

/-- Witness for C2's success half at a concrete successful fetch. -/
theorem claim_c2_fewer_tables_panics_witness :
    ([c2OkDay, c2OkDay, c2OkDay] : List DailyForecast).length = 3 :=
  claim_c2_fewer_tables_panics.2 1 ⟨2024, 6, 1⟩ (.gotResponse (.ok "page"))
    (fun _ _ => c2OkPage) [c2OkDay, c2OkDay, c2OkDay] (by rfl)

/-- **C3**: evaluation at the failing input. A response whose body cannot
be retrieved/decoded as UTF-8 text does NOT yield `Error::NetworkError`:
`.text_with_charset("utf-8").unwrap()` (scrape.rs lines 33-34) panics.
Only the initial GET failure is mapped to `NetworkError` (second
conjunct). -/
theorem claim_c3_decode_failure_panics :
    fetch_each_1hour_forecast ⟨2024, 6, 1⟩
      (.gotResponse (.error "error decoding response body"))
      (fun _ _ => ⟨[], []⟩) =
      .panicked ("called Result.unwrap on an Err value: " ++
        "error decoding response body") ∧
    ∀ (today : NaiveDate) (pp : Nat → String → Page) (msg : String),
      fetch_each_1hour_forecast today (.connectError msg) pp =
        .error (.NetworkError msg) :=
  ⟨rfl, fun _ _ _ => rfl⟩

/-- Fixture for C8: a sub-table whose two hour cells both read `5`. -/
def c8Table : SubTable :=
  ⟨["6月5日"], [⟨"5", false⟩, ⟨"5", false⟩], ["---", "---"], ["", ""],
    ["", ""], ["", ""], ["", ""], ["", ""], ["", ""]⟩

/-- Fixture for C8: a page whose three matching sub-tables are all
`c8Table`. -/
def c8Page : Page := ⟨[["Tsukuba", "09:00"]], [c8Table, c8Table, c8Table]⟩

/-- Fixture for C8: the day the fetch produces from `c8Table`, with hour
5 twice. -/
def c8Day : DailyForecast :=
  ⟨"Tsukuba (09:00)", ⟨2024, 6, 5⟩,
    [(⟨5, 0, 0⟩, .NotYet), (⟨5, 0, 0⟩, .NotYet)]⟩

/-- **C8** counterexample: a successful fetch whose days repeat hour 5 —
the `weathers` sequence of a successful fetch is neither duplicate-free
nor strictly ascending in general; the code never checks either. -/
theorem claim_c8_counterexample :
    fetch_each_1hour_forecast ⟨2024, 6, 1⟩ (.gotResponse (.ok "page"))
      (fun _ _ => c8Page) = .ok [c8Day, c8Day, c8Day] ∧
    ¬ (c8Day.weathers.map (fun p => p.1.hour)).Nodup ∧
    ¬ List.Chain' (· < ·) (c8Day.weathers.map (fun p => p.1.hour)) :=
  ⟨rfl, by decide, by simp [c8Day, List.chain'_cons]⟩

/-- **C8** (amended): the `weathers` sequence of a successfully extracted
day carries the page's hour cells parsed mod 24 in page row order; it is
duplicate-free and sorted ascending by hour-of-day exactly when the page
itself lists strictly increasing (mod-24-reduced) hours, which the code
does not enforce. -/
theorem claim_c8_sorted_when_page_sorted (loc ann : String)
    (today : NaiveDate) (t : SubTable) (d : DailyForecast)
    (hok : extractTable loc ann today t = .ok d)
    (hs : List Nat)
    (hrows : rowHours? (izip8 t.hours t.kinds t.temps t.probPrecips
      t.precips t.humids t.windDirs t.windSpeeds) = some hs)
    (hinc : List.Chain' (· < ·) hs) :
    d.weathers.map (fun p => p.1.hour) = hs ∧
    List.Chain' (· < ·) (d.weathers.map (fun p => p.1.hour)) ∧
    (d.weathers.map (fun p => p.1.hour)).Nodup := by
  have hm := extractTable_ok loc ann today t d hok
  have heq := mapSlots_hours _ _ _ hm hrows
  refine ⟨heq, heq ▸ hinc, ?_⟩
  rw [heq]
  have hpw : List.Pairwise (· < ·) hs := List.chain'_iff_pairwise.mp hinc
  exact hpw.nodup

/-- Fixture for the C8 witness: a sub-table with strictly increasing hour
cells 3, 5. -/
def c8wTable : SubTable :=
  ⟨["6月5日"], [⟨"3", false⟩, ⟨"5", false⟩], ["---", "---"], ["", ""],
    ["", ""], ["", ""], ["", ""], ["", ""], ["", ""]⟩

/-- Fixture for the C8 witness: the day extracted from `c8wTable`. -/
def c8wDay : DailyForecast :=
  ⟨"L (A)", ⟨2024, 6, 5⟩, [(⟨3, 0, 0⟩, .NotYet), (⟨5, 0, 0⟩, .NotYet)]⟩

/-- Witness for C8 (amended) at the strictly increasing fixture. -/
theorem claim_c8_sorted_when_page_sorted_witness :
    c8wDay.weathers.map (fun p => p.1.hour) = [3, 5] ∧
    List.Chain' (· < ·) (c8wDay.weathers.map (fun p => p.1.hour)) ∧
    (c8wDay.weathers.map (fun p => p.1.hour)).Nodup :=
  claim_c8_sorted_when_page_sorted "L" "A" ⟨2024, 6, 1⟩ c8wTable c8wDay
    (by rfl) [3, 5] (by rfl) (by simp [List.chain'_cons])

end Tenki
